import Mathlib

set_option maxHeartbeats 1000000
set_option maxRecDepth 4000

namespace DashBoard

/-! Shallow embedding of the 2D cut navigator and 1D series configurator of
`DashBoard_V2.py`.  Numeric data values and coordinates are modelled as
rationals; machine floats only enter through best-effort CSV parsing, outside
the navigator logic itself. -/

/-- Whitespace characters stripped by Python `int(str)` before parsing. -/
def isPySpace (c : Char) : Bool :=
  c = ' ' || c = '\t' || c = '\n' || c = '\r' || c = '\x0b' || c = '\x0c'

/-- Digit-run parser for Python `int(str)`: a nonempty run of ASCII digits in
which a single underscore may separate two digits. `acc` is the value of the
digits consumed so far. -/
def pyDigitsAux : Nat → List Char → Option Nat
  | acc, [] => some acc
  | acc, '_' :: c :: cs =>
      if c.isDigit then pyDigitsAux (acc * 10 + (c.toNat - 48)) cs else none
  | _, ['_'] => none
  | acc, c :: cs =>
      if c.isDigit then pyDigitsAux (acc * 10 + (c.toNat - 48)) cs else none

/-- Parses a nonempty digit run (underscore-separated) as a natural number. -/
def pyDigits : List Char → Option Nat
  | [] => none
  | c :: cs => if c.isDigit then pyDigitsAux (c.toNat - 48) cs else none

/-- Model of Python `int(text)` on decimal strings: strip surrounding
whitespace, optional sign, digit run.  Returns `none` where `int` raises
`ValueError`. -/
def pyParseInt (s : String) : Option Int :=
  let t := ((s.toList.dropWhile isPySpace).reverse.dropWhile isPySpace).reverse
  match t with
  | '+' :: rest => (pyDigits rest).map (fun n => (n : Int))
  | '-' :: rest => (pyDigits rest).map (fun n => -(n : Int))
  | rest => (pyDigits rest).map (fun n => (n : Int))

/-- Round the fraction `a / b` (with `b > 0`) to the nearest integer, ties to
even, as Python's string formatting does. -/
def roundHalfEvenFrac (a b : Int) : Int :=
  let d := a.fdiv b
  let r := a - d * b
  if 2 * r < b then d
  else if b < 2 * r then d + 1
  else if d % 2 = 0 then d else d + 1

/-- Model of Python `f"{v:.2f}"` fixed-point formatting on an exactly
represented value. -/
def format2f (q : Rat) : String :=
  let n := roundHalfEvenFrac (100 * q.num) (q.den : Int)
  let a := n.natAbs
  let ip := a / 100
  let fp := a % 100
  let sign := if q < 0 then "-" else ""
  sign ++ toString ip ++ "." ++ (if fp < 10 then "0" ++ toString fp else toString fp)

/-- A successfully loaded 2D dataset: `data_2d_loaded` with its coordinate
vectors `x_coords_2d` (one per column) and `y_coords_2d` (one per row). -/
structure Matrix2D where
  data : List (List Rat)
  xCoords : List Rat
  yCoords : List Rat
deriving DecidableEq

/-- `shape[0]` of the loaded matrix. -/
def rowCount (m : Matrix2D) : Nat := m.data.length

/-- `shape[1]` of the loaded matrix. -/
def colCount (m : Matrix2D) : Nat := (m.data.headD []).length

/-- Well-formedness guaranteed by a successful `_load_and_plot_2d`: a genuine
nonempty rectangular matrix whose coordinate vectors match its shape. -/
def wfMatrix (m : Matrix2D) : Bool :=
  decide (1 ≤ rowCount m) && decide (1 ≤ colCount m) &&
  m.data.all (fun r => decide (r.length = colCount m)) &&
  decide (m.yCoords.length = rowCount m) &&
  decide (m.xCoords.length = colCount m)

/-- The cut-navigator slice of `MainWindow` state: the loaded matrix (if any),
the two integer cursors `current_x_cut_idx` / `current_y_cut_idx`, and the
displayed text of the two cut-index line edits. -/
structure NavState where
  loaded : Option Matrix2D
  currentXCutIdx : Int
  currentYCutIdx : Int
  xFieldText : String
  yFieldText : String
deriving DecidableEq

/-- Observable side effects of the navigator handlers: an invocation of
`update_2d_cuts` (slice recompute), an out-of-range warning naming the upper
bound of the valid range `[0, maxIdx]`, or the invalid-integer warning. -/
inductive Event where
  | recomputeCuts
  | warnRange (maxIdx : Int)
  | warnParseErr
deriving DecidableEq

/-- One rendered cut: the line-plot series, its title, and the text preview
(header line plus the coordinate/value table handed to the text display). -/
structure CutRender where
  xData : List Rat
  yData : List Rat
  title : String
  previewHeader : String
  previewTable : List (Rat × Rat)
deriving DecidableEq

/-- The X-cut render of `update_2d_cuts`: row `yIdx` of the data against the
x-coordinates, titled with the fixed y-coordinate. -/
def xCutRender (m : Matrix2D) (yIdx : Nat) : CutRender :=
  let row := m.data.getD yIdx []
  let coord := m.yCoords.getD yIdx 0
  { xData := m.xCoords
    yData := row
    title := "X-Cut at Y-coord " ++ format2f coord
    previewHeader := "Y-Coordinate: " ++ format2f coord
    previewTable := m.xCoords.zip row }

/-- The Y-cut render of `update_2d_cuts`: column `xIdx` of the data against
the y-coordinates, titled with the fixed x-coordinate. -/
def yCutRender (m : Matrix2D) (xIdx : Nat) : CutRender :=
  let col := m.data.map (fun r => r.getD xIdx 0)
  let coord := m.xCoords.getD xIdx 0
  { xData := m.yCoords
    yData := col
    title := "Y-Cut at X-coord " ++ format2f coord
    previewHeader := "X-Coordinate: " ++ format2f coord
    previewTable := m.yCoords.zip col }

/-- `MainWindow.update_2d_cuts`: with a matrix loaded, clamp both cursors into
bounds, rewrite both text fields (with handlers suppressed), and render both
cuts; with nothing loaded, clear the renders and set both fields to "0". -/
def update_2d_cuts_full (s : NavState) : NavState × Option (CutRender × CutRender) :=
  match s.loaded with
  | some m =>
      let yIdx : Int := max 0 (min s.currentYCutIdx ((rowCount m : Int) - 1))
      let xIdx : Int := max 0 (min s.currentXCutIdx ((colCount m : Int) - 1))
      ({ s with currentYCutIdx := yIdx, currentXCutIdx := xIdx,
                yFieldText := toString yIdx, xFieldText := toString xIdx },
       some (xCutRender m yIdx.toNat, yCutRender m xIdx.toNat))
  | none =>
      ({ s with xFieldText := "0", yFieldText := "0" }, none)

/-- State component of `update_2d_cuts`. -/
def update_2d_cuts (s : NavState) : NavState := (update_2d_cuts_full s).1

/-- `MainWindow.navigate_2d_cut`: no-op when nothing is loaded; otherwise
clamp the selected cursor moved by `direction`, rewrite both text fields, and
unconditionally recompute the cuts. -/
def navigate_2d_cut (s : NavState) (cutType : String) (direction : Int) :
    NavState × List Event :=
  match s.loaded with
  | none => (s, [])
  | some m =>
      let newY : Int := max 0 (min ((rowCount m : Int) - 1) (s.currentYCutIdx + direction))
      let newX : Int := max 0 (min ((colCount m : Int) - 1) (s.currentXCutIdx + direction))
      let s1 :=
        if cutType = "x" then { s with currentYCutIdx := newY }
        else if cutType = "y" then { s with currentXCutIdx := newX }
        else s
      let s2 := { s1 with yFieldText := toString s1.currentYCutIdx,
                          xFieldText := toString s1.currentXCutIdx }
      (update_2d_cuts s2, [Event.recomputeCuts])

/-- `MainWindow.set_2d_cut_indices`: the `textChanged` handler of the two cut
index fields.  No-op when nothing is loaded or the text is empty; otherwise
parse, bounds-check, and either recompute (only on an actual change), or
revert the field and warn. -/
def set_2d_cut_indices (s : NavState) (text : String) (axisType : String) :
    NavState × List Event :=
  match s.loaded with
  | none => (s, [])
  | some m =>
      if text = "" then (s, [])
      else
        match pyParseInt text with
        | some newIndex =>
            if axisType = "y" then
              let maxIdx : Int := (rowCount m : Int) - 1
              if 0 ≤ newIndex ∧ newIndex ≤ maxIdx then
                if s.currentYCutIdx ≠ newIndex then
                  (update_2d_cuts { s with currentYCutIdx := newIndex },
                   [Event.recomputeCuts])
                else (s, [])
              else
                ({ s with yFieldText := toString s.currentYCutIdx },
                 [Event.warnRange maxIdx])
            else if axisType = "x" then
              let maxIdx : Int := (colCount m : Int) - 1
              if 0 ≤ newIndex ∧ newIndex ≤ maxIdx then
                if s.currentXCutIdx ≠ newIndex then
                  (update_2d_cuts { s with currentXCutIdx := newIndex },
                   [Event.recomputeCuts])
                else (s, [])
              else
                ({ s with xFieldText := toString s.currentXCutIdx },
                 [Event.warnRange maxIdx])
            else (s, [])
        | none =>
            if axisType = "y" then
              ({ s with yFieldText := toString s.currentYCutIdx },
               [Event.warnParseErr])
            else if axisType = "x" then
              ({ s with xFieldText := toString s.currentXCutIdx },
               [Event.warnParseErr])
            else (s, [Event.warnParseErr])

/-- Success path of `MainWindow._load_and_plot_2d` after parsing: install the
matrix, reset both cursors to 0, rewrite both fields (handlers suppressed),
then run `update_2d_cuts`. -/
def load_2d (s : NavState) (m : Matrix2D) : NavState :=
  let s1 := { s with loaded := some m, currentXCutIdx := 0, currentYCutIdx := 0 }
  let s2 := { s1 with xFieldText := toString s1.currentXCutIdx,
                      yFieldText := toString s1.currentYCutIdx }
  update_2d_cuts s2

/-- The navigator operations a user can drive after a load: a text edit commit
on either index field, a prev/next click, or a bare recompute. -/
inductive NavOp where
  | setIdx (text axisType : String)
  | navigate (cutType : String) (direction : Int)
  | recompute

/-- State effect of one navigator operation. -/
def applyNavOp (s : NavState) : NavOp → NavState
  | .setIdx t a => (set_2d_cut_indices s t a).1
  | .navigate c d => (navigate_2d_cut s c d).1
  | .recompute => update_2d_cuts s

/-- Run a sequence of navigator operations. -/
def runNavOps (s : NavState) : List NavOp → NavState
  | [] => s
  | op :: ops => runNavOps (applyNavOp s op) ops

/-- The cut-cursor invariant: with a matrix loaded both cursors are in bounds;
with nothing loaded both text fields display "0". -/
def cutInvB (s : NavState) : Bool :=
  match s.loaded with
  | some m =>
      decide (0 ≤ s.currentYCutIdx) &&
      decide (s.currentYCutIdx ≤ (rowCount m : Int) - 1) &&
      decide (0 ≤ s.currentXCutIdx) &&
      decide (s.currentXCutIdx ≤ (colCount m : Int) - 1)
  | none => decide (s.xFieldText = "0") && decide (s.yFieldText = "0")

/-- Any matrix held in the state is well formed (true of every state reachable
through a successful load). -/
def wfStateB (s : NavState) : Bool :=
  match s.loaded with
  | some m => wfMatrix m
  | none => true

/-- A well-formed 2×2 example matrix. -/
def mat2x2 : Matrix2D := ⟨[[1, 2], [3, 4]], [1, 2], [10, 20]⟩

/-- Navigator state immediately after loading `mat2x2`. -/
def s2x2 : NavState := ⟨some mat2x2, 0, 0, "0", "0"⟩

/-- The 4-row × 3-column example matrix from the specification, with
`yCoords = [10, 20, 30, 40]` and `xCoords = [1, 2, 3]`. -/
def mat4x3 : Matrix2D :=
  ⟨[[1, 2, 3], [4, 5, 6], [7, 8, 9], [10, 11, 12]], [1, 2, 3], [10, 20, 30, 40]⟩

/-- How many slice recomputes a list of emitted events contains. -/
def countRecomputes (evs : List Event) : Nat :=
  evs.countP (fun e => e == Event.recomputeCuts)

/-- One 1D series configuration row: x column index, y column index, and the
Twinx (secondary-axis) checkbox default, as created by
`add_plot_series_input`. -/
structure SeriesSpec where
  x : Nat
  y : Nat
  twinx : Bool
deriving DecidableEq

/-- The default series created by `_load_and_plot_1d` for a table with
`ncols` columns: `(0,1,primary)` when at least 2 columns, additionally
`(0,3,secondary)` when at least 4, and a `(0,0,primary)` fallback when the
list would otherwise be empty. -/
def load_1d_default_series (ncols : Nat) : List SeriesSpec :=
  let s1 : List SeriesSpec := []
  let s2 := if 2 ≤ ncols then s1 ++ [⟨0, 1, false⟩] else s1
  let s3 := if 4 ≤ ncols then s2 ++ [⟨0, 3, true⟩] else s2
  if s3 = [] ∧ 0 < ncols then s3 ++ [⟨0, 0, false⟩]
  else if s3 = [] then s3 ++ [⟨0, 0, false⟩]
  else s3

/-- `_load_and_plot_1d` first runs `clear_all_1d_series_inputs`, discarding
whatever series rows existed, then appends the column-count defaults. -/
def load_1d_series_rows (prior : List SeriesSpec) (ncols : Nat) : List SeriesSpec :=
  load_1d_default_series ncols

/-- The loaded tabular dataset `current_1d_df`: column names and, per column,
the values after `pd.to_numeric(..., errors='coerce')` — `none` stands for
NaN (a non-numeric cell). -/
structure Table where
  colNames : List String
  colVals : List (List (Option Rat))
deriving DecidableEq

/-- `shape[1]` of the loaded dataframe. -/
def numCols (t : Table) : Nat := t.colVals.length

/-- The editable controls of one series row: the two index line edits and the
Twinx checkbox. -/
structure SeriesInputRow where
  xText : String
  yText : String
  twinx : Bool
deriving DecidableEq

/-- Why `update_1d_plot_from_column_selection` skips a series: non-integer
index text (`ValueError`), an index outside `[0, numCols)` (`IndexError`), or
no rows left after dropping non-numeric coordinates. -/
inductive WarnKind where
  | invalidIndex
  | outOfBounds
  | noValidRows
deriving DecidableEq

/-- One entry of `series_to_plot`, together with the column headers used for
the text-preview table. -/
structure PlotSeries where
  xData : List Rat
  yData : List Rat
  label : String
  useTwinx : Bool
  xHeader : String
  yHeader : String
deriving DecidableEq

deriving instance DecidableEq for Except

/-- The per-series body of the loop in
`update_1d_plot_from_column_selection`: parse both indices, bounds-check them
against the column count, drop rows where either coordinate is NaN, and
either fail with the reported warning kind or produce the series. -/
def processSeries (t : Table) (inp : SeriesInputRow) : Except WarnKind PlotSeries :=
  match pyParseInt inp.xText, pyParseInt inp.yText with
  | some xi, some yi =>
      if ¬(0 ≤ xi ∧ xi < (numCols t : Int)) then .error .outOfBounds
      else if ¬(0 ≤ yi ∧ yi < (numCols t : Int)) then .error .outOfBounds
      else
        let xcol := t.colVals.getD xi.toNat []
        let ycol := t.colVals.getD yi.toNat []
        let pairs := (xcol.zip ycol).filterMap (fun p =>
          match p.1, p.2 with
          | some a, some b => some (a, b)
          | _, _ => none)
        if pairs = [] then .error .noValidRows
        else
          let xHeader := t.colNames.getD xi.toNat ("Column " ++ toString xi)
          let yHeader := t.colNames.getD yi.toNat ("Column " ++ toString yi)
          .ok { xData := pairs.map Prod.fst
                yData := pairs.map Prod.snd
                label := "(" ++ xHeader ++ " vs " ++ yHeader ++ ")"
                useTwinx := inp.twinx
                xHeader := xHeader
                yHeader := yHeader }
  | _, _ => .error .invalidIndex

/-- `display_data_dict` insertion: a column is added only if its header name
is not already present (first occurrence wins). -/
def insertIfAbsent (d : List (String × List Rat)) (k : String) (v : List Rat) :
    List (String × List Rat) :=
  if d.any (fun p => p.1 == k) then d else d ++ [(k, v)]

/-- Outcome of one `update_1d_plot_from_column_selection` run: the surviving
series handed to `plot_line`, the preview columns in insertion order, the
warnings reported (series position, kind), whether the plot was cleared, and
whether the "No Plottable Series" message was shown. -/
structure Update1DResult where
  plotted : List PlotSeries
  displayCols : List (String × List Rat)
  warnings : List (Nat × WarnKind)
  cleared : Bool
  noPlottableMsg : Bool
deriving DecidableEq

/-- `MainWindow.update_1d_plot_from_column_selection`: silently clears when no
dataframe is loaded; otherwise resolves every series row in order, skipping
(with a warning) the failing ones, then either plots the survivors and builds
the preview table or clears everything and reports "No Plottable Series". -/
def update_1d_plot_from_column_selection (df : Option Table)
    (inputs : List SeriesInputRow) : Update1DResult :=
  match df with
  | none => ⟨[], [], [], true, false⟩
  | some t =>
      let results := inputs.map (processSeries t)
      let warnings := results.enum.filterMap (fun p =>
        match p.2 with
        | .error k => some (p.1, k)
        | .ok _ => none)
      let plotted := results.filterMap Except.toOption
      let displayCols := plotted.foldl
        (fun d sr => insertIfAbsent (insertIfAbsent d sr.xHeader sr.xData) sr.yHeader sr.yData) []
      if plotted = [] then ⟨[], [], warnings, true, true⟩
      else ⟨plotted, displayCols, warnings, false, false⟩

/-- The fixed color palette of `DataPlotter.plot_line`. -/
def colorsPalette : List String :=
  ["b", "g", "r", "c", "m", "y", "k", "purple", "orange"]

/-- `plot_line` assigns each series the palette color at its position in the
list it receives, cycling modulo the palette length. -/
def plotLineColors (series : List PlotSeries) : List String :=
  series.enum.map (fun p => colorsPalette.getD (p.1 % colorsPalette.length) "k")

/-- A 2-column example table with numeric values in every cell. -/
def table2 : Table := ⟨["A", "B"], [[some 1, some 2], [some 3, some 4]]⟩

/-- Two series rows over `table2`: the first has both indices out of range,
the second is valid. -/
def inputsEx : List SeriesInputRow := [⟨"9", "9", false⟩, ⟨"0", "1", false⟩]

lemma wfMatrix_rowCount {m : Matrix2D} (h : wfMatrix m = true) : 1 ≤ rowCount m := by
  unfold wfMatrix at h
  simp only [Bool.and_eq_true, decide_eq_true_eq] at h
  exact h.1.1.1.1

lemma wfMatrix_colCount {m : Matrix2D} (h : wfMatrix m = true) : 1 ≤ colCount m := by
  unfold wfMatrix at h
  simp only [Bool.and_eq_true, decide_eq_true_eq] at h
  exact h.1.1.1.2

lemma update_2d_cuts_loaded (s : NavState) : (update_2d_cuts s).loaded = s.loaded := by
  unfold update_2d_cuts update_2d_cuts_full
  split <;> rfl

lemma navigate_2d_cut_loaded (s : NavState) (c : String) (d : Int) :
    (navigate_2d_cut s c d).1.loaded = s.loaded := by
  cases hL : s.loaded with
  | none => simp [navigate_2d_cut, hL]
  | some m =>
    simp only [navigate_2d_cut, hL]
    split_ifs <;> simp [update_2d_cuts_loaded, hL]

lemma set_2d_cut_indices_loaded (s : NavState) (t a : String) :
    (set_2d_cut_indices s t a).1.loaded = s.loaded := by
  cases hL : s.loaded with
  | none => simp [set_2d_cut_indices, hL]
  | some m =>
    simp only [set_2d_cut_indices, hL]
    cases hp : pyParseInt t <;>
      simp only [hp] <;> split_ifs <;> simp [update_2d_cuts_loaded, hL]

lemma applyNavOp_loaded (s : NavState) (op : NavOp) : (applyNavOp s op).loaded = s.loaded := by
  cases op with
  | setIdx t a => exact set_2d_cut_indices_loaded s t a
  | navigate c d => exact navigate_2d_cut_loaded s c d
  | recompute => exact update_2d_cuts_loaded s

lemma wfStateB_eq_of_loaded {s s' : NavState} (h : s'.loaded = s.loaded) :
    wfStateB s' = wfStateB s := by
  unfold wfStateB
  rw [h]

lemma cutInvB_update_2d_cuts (s : NavState) (hwf : wfStateB s = true) :
    cutInvB (update_2d_cuts s) = true := by
  unfold update_2d_cuts update_2d_cuts_full
  split
  next m hL =>
    have hm : wfMatrix m = true := by
      unfold wfStateB at hwf
      rw [hL] at hwf
      exact hwf
    have h1 : 1 ≤ rowCount m := wfMatrix_rowCount hm
    have h2 : 1 ≤ colCount m := wfMatrix_colCount hm
    show cutInvB _ = true
    unfold cutInvB
    rw [show ({ s with currentYCutIdx := max 0 (min s.currentYCutIdx ((rowCount m : Int) - 1)),
                       currentXCutIdx := max 0 (min s.currentXCutIdx ((colCount m : Int) - 1)),
                       yFieldText := toString (max 0 (min s.currentYCutIdx ((rowCount m : Int) - 1))),
                       xFieldText := toString (max 0 (min s.currentXCutIdx ((colCount m : Int) - 1))) } :
              NavState).loaded = s.loaded from rfl, hL]
    simp only [Bool.and_eq_true, decide_eq_true_eq]
    refine ⟨⟨⟨?_, ?_⟩, ?_⟩, ?_⟩ <;> omega
  next hL =>
    show cutInvB _ = true
    unfold cutInvB
    rw [show ({ s with xFieldText := "0", yFieldText := "0" } : NavState).loaded = s.loaded from
          rfl, hL]
    simp

/-- Rewriting a text field does not change the loaded-case invariant. -/
lemma cutInvB_setYField (s : NavState) (m : Matrix2D) (t : String) (hL : s.loaded = some m) :
    cutInvB { s with yFieldText := t } = cutInvB s := by
  simp only [cutInvB, hL]

/-- Rewriting a text field does not change the loaded-case invariant. -/
lemma cutInvB_setXField (s : NavState) (m : Matrix2D) (t : String) (hL : s.loaded = some m) :
    cutInvB { s with xFieldText := t } = cutInvB s := by
  simp only [cutInvB, hL]

lemma cutInvB_set_2d_cut_indices (s : NavState) (t a : String) (hwf : wfStateB s = true)
    (hinv : cutInvB s = true) : cutInvB (set_2d_cut_indices s t a).1 = true := by
  cases hL : s.loaded with
  | none => simpa [set_2d_cut_indices, hL] using hinv
  | some m =>
    have hwm : wfMatrix m = true := by simpa [wfStateB, hL] using hwf
    have hinv' : (decide (0 ≤ s.currentYCutIdx) &&
        decide (s.currentYCutIdx ≤ (rowCount m : Int) - 1) &&
        decide (0 ≤ s.currentXCutIdx) &&
        decide (s.currentXCutIdx ≤ (colCount m : Int) - 1)) = true := by
      simpa [cutInvB, hL] using hinv
    simp only [set_2d_cut_indices, hL]
    cases hp : pyParseInt t with
    | none =>
      simp only [hp]
      split_ifs <;>
        first
          | exact hinv
          | simpa [cutInvB] using hinv'
    | some v =>
      simp only [hp]
      split_ifs <;>
        first
          | exact hinv
          | (exact cutInvB_update_2d_cuts _ (by simpa [wfStateB, hL] using hwm))
          | simpa [cutInvB] using hinv'

lemma cutInvB_navigate_2d_cut (s : NavState) (c : String) (d : Int)
    (hwf : wfStateB s = true) (hinv : cutInvB s = true) :
    cutInvB (navigate_2d_cut s c d).1 = true := by
  cases hL : s.loaded with
  | none => simpa [navigate_2d_cut, hL] using hinv
  | some m =>
    have hwm : wfMatrix m = true := by simpa [wfStateB, hL] using hwf
    simp only [navigate_2d_cut, hL]
    split_ifs <;>
      exact cutInvB_update_2d_cuts _ (by simpa [wfStateB, hL] using hwm)

lemma cutInvB_applyNavOp (s : NavState) (op : NavOp) (hwf : wfStateB s = true)
    (hinv : cutInvB s = true) : cutInvB (applyNavOp s op) = true := by
  cases op with
  | setIdx t a => exact cutInvB_set_2d_cut_indices s t a hwf hinv
  | navigate c d => exact cutInvB_navigate_2d_cut s c d hwf hinv
  | recompute => exact cutInvB_update_2d_cuts s hwf

/-- Claim C1: after any sequence of `set_2d_cut_indices`, `navigate_2d_cut`
and `update_2d_cuts` operations, a state whose loaded matrix is well formed
and which satisfies the cut-cursor invariant still satisfies it: with a matrix
loaded the row cut index stays in `[0, rowCount-1]` and the column cut index
in `[0, colCount-1]`, and with no matrix loaded both cursor text fields
display "0". -/
theorem c1_cut_index_invariant (s : NavState) (ops : List NavOp)
    (hwf : wfStateB s = true) (hinv : cutInvB s = true) :
    cutInvB (runNavOps s ops) = true := by
  induction ops generalizing s with
  | nil => exact hinv
  | cons op ops ih =>
    have hwf' : wfStateB (applyNavOp s op) = true := by
      rw [wfStateB_eq_of_loaded (applyNavOp_loaded s op)]
      exact hwf
    exact ih (applyNavOp s op) hwf' (cutInvB_applyNavOp s op hwf hinv)

/-- Witness for C1 at a concrete loaded state and operation sequence. -/
theorem c1_cut_index_invariant_witness :
    wfStateB s2x2 = true ∧ cutInvB s2x2 = true ∧
      cutInvB (runNavOps s2x2
        [.setIdx "1" "y", .navigate "x" 1, .recompute, .setIdx "abc" "x",
         .setIdx "" "y", .setIdx "99" "x", .navigate "y" (-1)]) = true :=
  ⟨by decide, by decide, c1_cut_index_invariant s2x2 _ (by decide) (by decide)⟩

lemma update_2d_cuts_explicit (m : Matrix2D) (xi yi : Int) (xt yt : String) :
    update_2d_cuts ⟨some m, xi, yi, xt, yt⟩ =
      ⟨some m, max 0 (min xi ((colCount m : Int) - 1)),
       max 0 (min yi ((rowCount m : Int) - 1)),
       toString (max 0 (min xi ((colCount m : Int) - 1))),
       toString (max 0 (min yi ((rowCount m : Int) - 1)))⟩ := rfl

/-- Claim C4: with a matrix loaded, `navigate_2d_cut` on either axis and
direction ±1 sets the selected cursor to `clamp(current + direction, 0,
bound)` — in particular it saturates at the bounds with no wraparound —
always emits exactly one recompute, and always rewrites both cursor text
fields to the resulting integers. -/
theorem c4_navigate_clamps_and_recomputes (s : NavState) (m : Matrix2D)
    (cutType : String) (direction : Int)
    (h : s.loaded = some m) (hwf : wfMatrix m = true)
    (hd : direction = -1 ∨ direction = 1)
    (hax : cutType = "x" ∨ cutType = "y") :
    (cutType = "x" →
      (navigate_2d_cut s cutType direction).1.currentYCutIdx =
        max 0 (min (s.currentYCutIdx + direction) ((rowCount m : Int) - 1))) ∧
    (cutType = "y" →
      (navigate_2d_cut s cutType direction).1.currentXCutIdx =
        max 0 (min (s.currentXCutIdx + direction) ((colCount m : Int) - 1))) ∧
    (navigate_2d_cut s cutType direction).2 = [Event.recomputeCuts] ∧
    (navigate_2d_cut s cutType direction).1.yFieldText =
      toString ((navigate_2d_cut s cutType direction).1.currentYCutIdx) ∧
    (navigate_2d_cut s cutType direction).1.xFieldText =
      toString ((navigate_2d_cut s cutType direction).1.currentXCutIdx) := by
  have h1 : 1 ≤ rowCount m := wfMatrix_rowCount hwf
  have h2 : 1 ≤ colCount m := wfMatrix_colCount hwf
  rcases hax with hx | hy
  · subst hx
    simp [navigate_2d_cut, h, update_2d_cuts_explicit]
    omega
  · subst hy
    simp [navigate_2d_cut, h, update_2d_cuts_explicit]
    omega

/-- Witness for C4: navigating +1 at the upper row bound of `mat2x2` stays at
the bound. -/
theorem c4_navigate_witness :
    (navigate_2d_cut ⟨some mat2x2, 0, 1, "0", "1"⟩ "x" 1).1.currentYCutIdx =
        max 0 (min ((1 : Int) + 1) ((rowCount mat2x2 : Int) - 1)) ∧
    (navigate_2d_cut ⟨some mat2x2, 0, 1, "0", "1"⟩ "x" 1).2 = [Event.recomputeCuts] :=
  ⟨(c4_navigate_clamps_and_recomputes ⟨some mat2x2, 0, 1, "0", "1"⟩ mat2x2 "x" 1 rfl
      (by decide) (Or.inr rfl) (Or.inl rfl)).1 rfl,
   (c4_navigate_clamps_and_recomputes ⟨some mat2x2, 0, 1, "0", "1"⟩ mat2x2 "x" 1 rfl
      (by decide) (Or.inr rfl) (Or.inl rfl)).2.2.1⟩

/-- Claim C9: a successful 2D load resets both cut indices to 0 and makes
both cursor text fields display "0", whatever the prior state was. -/
theorem c9_load_resets_cursors (s : NavState) (m : Matrix2D) :
    (load_2d s m).loaded = some m ∧
    (load_2d s m).currentXCutIdx = 0 ∧ (load_2d s m).currentYCutIdx = 0 ∧
    (load_2d s m).xFieldText = "0" ∧ (load_2d s m).yFieldText = "0" := by
  have hy : max 0 (min (0 : Int) ((rowCount m : Int) - 1)) = 0 := by omega
  have hx : max 0 (min (0 : Int) ((colCount m : Int) - 1)) = 0 := by omega
  have h0 : toString (0 : Int) = "0" := rfl
  simp [load_2d, update_2d_cuts_explicit, hy, hx, h0]

/-- Claim C10: with a matrix loaded, committing an empty index field is a
silent no-op — state untouched, no recompute, no warning — while every other
non-integer input produces the invalid-integer warning. -/
theorem c10_empty_text_silent_noop (s : NavState) (m : Matrix2D) (axisType : String)
    (h : s.loaded = some m) :
    set_2d_cut_indices s "" axisType = (s, []) ∧
    (∀ t : String, t ≠ "" → pyParseInt t = none →
      (set_2d_cut_indices s t axisType).2 = [Event.warnParseErr]) := by
  constructor
  · simp [set_2d_cut_indices, h]
  · intro t ht hp
    simp only [set_2d_cut_indices, h, hp, if_neg ht]
    split_ifs <;> rfl

/-- Witness for C10 on a concrete loaded state. -/
theorem c10_empty_text_silent_noop_witness :
    set_2d_cut_indices s2x2 "" "y" = (s2x2, []) ∧
    (set_2d_cut_indices s2x2 "x" "y").2 = [Event.warnParseErr] :=
  ⟨(c10_empty_text_silent_noop s2x2 mat2x2 "y" rfl).1,
   (c10_empty_text_silent_noop s2x2 mat2x2 "y" rfl).2 "x" (by decide) (by decide)⟩

/-- Counterexample to C2 as stated: the empty string does not parse as an
integer, yet `set_2d_cut_indices` neither reverts the field nor surfaces any
warning for it — it is a silent no-op. -/
theorem c2_counterexample :
    pyParseInt "" = none ∧ set_2d_cut_indices s2x2 "" "y" = (s2x2, []) := by
  constructor
  · decide
  · decide

/-- Claim C2 (amended: every NON-EMPTY input string that does not parse as an
integer, and every parsed integer outside the valid range): with a matrix
loaded, `set_2d_cut_indices` leaves the cut index unchanged, reverts the
displayed field text to the current index value, and surfaces a warning — the
invalid-integer warning for parse failures, and a warning naming the valid
range `[0, maxIdx]` for out-of-range integers. -/
theorem c2_set_rejects_invalid_input (s : NavState) (m : Matrix2D) (t : String)
    (h : s.loaded = some m) :
    (t ≠ "" → pyParseInt t = none →
      set_2d_cut_indices s t "y" =
        ({ s with yFieldText := toString s.currentYCutIdx }, [Event.warnParseErr]) ∧
      set_2d_cut_indices s t "x" =
        ({ s with xFieldText := toString s.currentXCutIdx }, [Event.warnParseErr])) ∧
    (∀ v : Int, pyParseInt t = some v → ¬(0 ≤ v ∧ v ≤ (rowCount m : Int) - 1) →
      set_2d_cut_indices s t "y" =
        ({ s with yFieldText := toString s.currentYCutIdx },
         [Event.warnRange ((rowCount m : Int) - 1)])) ∧
    (∀ v : Int, pyParseInt t = some v → ¬(0 ≤ v ∧ v ≤ (colCount m : Int) - 1) →
      set_2d_cut_indices s t "x" =
        ({ s with xFieldText := toString s.currentXCutIdx },
         [Event.warnRange ((colCount m : Int) - 1)])) := by
  have hempty : pyParseInt "" = none := by decide
  refine ⟨fun ht hp => ?_, fun v hp hr => ?_, fun v hp hr => ?_⟩
  · constructor <;> simp [set_2d_cut_indices, h, hp, if_neg ht]
  · have ht : ¬ t = "" := by
      intro he
      rw [he, hempty] at hp
      exact Option.noConfusion hp
    simp only [set_2d_cut_indices, h, hp, if_neg ht]
    simp only [reduceIte]
    rw [if_neg hr]
  · have ht : ¬ t = "" := by
      intro he
      rw [he, hempty] at hp
      exact Option.noConfusion hp
    simp only [set_2d_cut_indices, h, hp, if_neg ht]
    rw [if_neg (by decide : ¬("x" : String) = "y")]
    simp only [reduceIte]
    rw [if_neg hr]

/-- Witness for C2 (amended) on a concrete loaded state: a non-integer text
and an out-of-range integer. -/
theorem c2_set_rejects_invalid_input_witness :
    set_2d_cut_indices s2x2 "abc" "y" =
      ({ s2x2 with yFieldText := toString s2x2.currentYCutIdx }, [Event.warnParseErr]) ∧
    set_2d_cut_indices s2x2 "5" "y" =
      ({ s2x2 with yFieldText := toString s2x2.currentYCutIdx },
       [Event.warnRange ((rowCount mat2x2 : Int) - 1)]) :=
  ⟨((c2_set_rejects_invalid_input s2x2 mat2x2 "abc" rfl).1 (by decide) (by decide)).1,
   (c2_set_rejects_invalid_input s2x2 mat2x2 "5" rfl).2.1 5 (by decide) (by decide)⟩

lemma set_y_eq_case (s : NavState) (m : Matrix2D) (t : String) (v : Int)
    (h : s.loaded = some m) (hp : pyParseInt t = some v)
    (hin : 0 ≤ v ∧ v ≤ (rowCount m : Int) - 1) (hc : s.currentYCutIdx = v) :
    set_2d_cut_indices s t "y" = (s, []) := by
  have ht : ¬ t = "" := by
    intro he
    rw [he, (by decide : pyParseInt "" = none)] at hp
    exact Option.noConfusion hp
  simp only [set_2d_cut_indices, h, if_neg ht, hp, reduceIte]
  rw [if_pos hin, if_neg (not_not_intro hc)]

lemma set_y_change_case (s : NavState) (m : Matrix2D) (t : String) (v : Int)
    (h : s.loaded = some m) (hp : pyParseInt t = some v)
    (hin : 0 ≤ v ∧ v ≤ (rowCount m : Int) - 1) (hc : s.currentYCutIdx ≠ v) :
    set_2d_cut_indices s t "y" =
      (update_2d_cuts { s with currentYCutIdx := v }, [Event.recomputeCuts]) := by
  have ht : ¬ t = "" := by
    intro he
    rw [he, (by decide : pyParseInt "" = none)] at hp
    exact Option.noConfusion hp
  simp only [set_2d_cut_indices, h, if_neg ht, hp, reduceIte]
  rw [if_pos hin, if_pos hc]

/-- Counterexample to C3 as stated: when the committed value already equals
the current cut index, two identical `set_2d_cut_indices` calls trigger zero
recomputes, not "exactly one". -/
theorem c3_counterexample :
    countRecomputes ((set_2d_cut_indices s2x2 "0" "y").2 ++
        (set_2d_cut_indices (set_2d_cut_indices s2x2 "0" "y").1 "0" "y").2) = 0 ∧
    (0 : Nat) ≠ 1 := ⟨by decide, by decide⟩

/-- Claim C3 (amended): committing an in-bounds row index equal to the current
one triggers no recompute, so two identical in-bounds commits trigger at most
one recompute — exactly one when the value differs from the current index,
zero when it already equals it. -/
theorem c3_set_row_idempotent (s : NavState) (m : Matrix2D) (t : String) (v : Int)
    (h : s.loaded = some m)
    (hp : pyParseInt t = some v) (h0 : 0 ≤ v) (h1 : v ≤ (rowCount m : Int) - 1) :
    countRecomputes ((set_2d_cut_indices s t "y").2 ++
        (set_2d_cut_indices (set_2d_cut_indices s t "y").1 t "y").2) =
      (if s.currentYCutIdx = v then 0 else 1) ∧
    countRecomputes ((set_2d_cut_indices s t "y").2 ++
        (set_2d_cut_indices (set_2d_cut_indices s t "y").1 t "y").2) ≤ 1 := by
  by_cases hc : s.currentYCutIdx = v
  · rw [set_y_eq_case s m t v h hp ⟨h0, h1⟩ hc]
    rw [set_y_eq_case s m t v h hp ⟨h0, h1⟩ hc]
    simp [countRecomputes, hc]
  · rw [set_y_change_case s m t v h hp ⟨h0, h1⟩ hc]
    have hrec : ({ s with currentYCutIdx := v } : NavState) =
        ⟨some m, s.currentXCutIdx, v, s.xFieldText, s.yFieldText⟩ := by
      rw [← h]
    have hyv : max 0 (min v ((rowCount m : Int) - 1)) = v := by omega
    have hs' : update_2d_cuts { s with currentYCutIdx := v } =
        ⟨some m, max 0 (min s.currentXCutIdx ((colCount m : Int) - 1)), v,
         toString (max 0 (min s.currentXCutIdx ((colCount m : Int) - 1))),
         toString v⟩ := by
      rw [hrec, update_2d_cuts_explicit, hyv]
    rw [hs']
    rw [set_y_eq_case _ m t v rfl hp ⟨h0, h1⟩ rfl]
    simp [countRecomputes, hc]

/-- Witness for C3 (amended) on a concrete loaded state: committing "1" twice
from index 0 recomputes exactly once. -/
theorem c3_set_row_idempotent_witness :
    countRecomputes ((set_2d_cut_indices s2x2 "1" "y").2 ++
        (set_2d_cut_indices (set_2d_cut_indices s2x2 "1" "y").1 "1" "y").2) =
      (if s2x2.currentYCutIdx = 1 then 0 else 1) ∧
    countRecomputes ((set_2d_cut_indices s2x2 "1" "y").2 ++
        (set_2d_cut_indices (set_2d_cut_indices s2x2 "1" "y").1 "1" "y").2) ≤ 1 :=
  c3_set_row_idempotent s2x2 mat2x2 "1" 1 rfl (by decide) (by decide) (by decide)

/-- Claim C6: with a matrix loaded and both cursors in bounds,
`update_2d_cuts` renders an X-cut whose x-values are `xCoords` and whose
y-values are row `rowCutIndex` of the data, and a Y-cut whose x-values are
`yCoords` and whose y-values are column `colCutIndex`; each plot is titled
with the fixed coordinate formatted to 2 decimal places and each text preview
is the slice's coordinate/value table prefixed by the fixed coordinate.  On
the 4×3 example with `yCoords = [10,20,30,40]` and row cut 2, the X-cut title
ends with "30.00". -/
theorem c6_update_renders_cut_slices (s : NavState) (m : Matrix2D)
    (h : s.loaded = some m)
    (hy0 : 0 ≤ s.currentYCutIdx) (hy1 : s.currentYCutIdx ≤ (rowCount m : Int) - 1)
    (hx0 : 0 ≤ s.currentXCutIdx) (hx1 : s.currentXCutIdx ≤ (colCount m : Int) - 1) :
    ((update_2d_cuts_full s).2 =
      some (xCutRender m s.currentYCutIdx.toNat, yCutRender m s.currentXCutIdx.toNat) ∧
     (xCutRender m s.currentYCutIdx.toNat).xData = m.xCoords ∧
     (xCutRender m s.currentYCutIdx.toNat).yData = m.data.getD s.currentYCutIdx.toNat [] ∧
     (xCutRender m s.currentYCutIdx.toNat).title =
       "X-Cut at Y-coord " ++ format2f (m.yCoords.getD s.currentYCutIdx.toNat 0) ∧
     (xCutRender m s.currentYCutIdx.toNat).previewHeader =
       "Y-Coordinate: " ++ format2f (m.yCoords.getD s.currentYCutIdx.toNat 0) ∧
     (xCutRender m s.currentYCutIdx.toNat).previewTable =
       m.xCoords.zip (m.data.getD s.currentYCutIdx.toNat []) ∧
     (yCutRender m s.currentXCutIdx.toNat).xData = m.yCoords ∧
     (yCutRender m s.currentXCutIdx.toNat).yData =
       m.data.map (fun r => r.getD s.currentXCutIdx.toNat 0) ∧
     (yCutRender m s.currentXCutIdx.toNat).title =
       "Y-Cut at X-coord " ++ format2f (m.xCoords.getD s.currentXCutIdx.toNat 0) ∧
     (yCutRender m s.currentXCutIdx.toNat).previewHeader =
       "X-Coordinate: " ++ format2f (m.xCoords.getD s.currentXCutIdx.toNat 0) ∧
     (yCutRender m s.currentXCutIdx.toNat).previewTable =
       m.yCoords.zip (m.data.map (fun r => r.getD s.currentXCutIdx.toNat 0))) ∧
    ((xCutRender mat4x3 2).xData = [1, 2, 3] ∧
     (xCutRender mat4x3 2).yData = [7, 8, 9] ∧
     (xCutRender mat4x3 2).title = "X-Cut at Y-coord " ++ "30.00" ∧
     (xCutRender mat4x3 2).previewHeader = "Y-Coordinate: " ++ "30.00") := by
  constructor
  · have hcy : max 0 (min s.currentYCutIdx ((rowCount m : Int) - 1)) = s.currentYCutIdx := by
      omega
    have hcx : max 0 (min s.currentXCutIdx ((colCount m : Int) - 1)) = s.currentXCutIdx := by
      omega
    refine ⟨?_, rfl, rfl, rfl, rfl, rfl, rfl, rfl, rfl, rfl, rfl⟩
    simp only [update_2d_cuts_full, h, hcy, hcx]
  · refine ⟨by decide, by decide, ?_, ?_⟩
    · show _ = "X-Cut at Y-coord " ++ "30.00"
      decide
    · show _ = "Y-Coordinate: " ++ "30.00"
      decide

/-- Witness for C6 on the 4×3 example matrix with the row cut at index 2. -/
theorem c6_update_renders_cut_slices_witness :
    (update_2d_cuts_full ⟨some mat4x3, 0, 2, "0", "2"⟩).2 =
      some (xCutRender mat4x3 (2 : Int).toNat, yCutRender mat4x3 (0 : Int).toNat) :=
  ((c6_update_renders_cut_slices ⟨some mat4x3, 0, 2, "0", "2"⟩ mat4x3 rfl
      (by decide) (by decide) (by decide) (by decide)).1).1

/-- Claim C5: loading a 1D table clears the series list and repopulates it by
column count — `(0,1,primary)` from 2 columns, additionally `(0,3,secondary)`
from 4, and a `(0,0,primary)` fallback when at least one column exists but no
default applied; a 2-column table yields exactly one default series and a
5-column table exactly the two. -/
theorem c5_load_default_series (prior : List SeriesSpec) (n : Nat) :
    (4 ≤ n → load_1d_series_rows prior n = [⟨0, 1, false⟩, ⟨0, 3, true⟩]) ∧
    (2 ≤ n → n < 4 → load_1d_series_rows prior n = [⟨0, 1, false⟩]) ∧
    (0 < n → n < 2 → load_1d_series_rows prior n = [⟨0, 0, false⟩]) ∧
    load_1d_series_rows prior 2 = [⟨0, 1, false⟩] ∧
    load_1d_series_rows prior 5 = [⟨0, 1, false⟩, ⟨0, 3, true⟩] := by
  refine ⟨fun h4 => ?_, fun h2 hl4 => ?_, fun h0 hl2 => ?_, ?_, ?_⟩
  case refine_4 =>
    show load_1d_default_series 2 = [⟨0, 1, false⟩]
    decide
  case refine_5 =>
    show load_1d_default_series 5 = [⟨0, 1, false⟩, ⟨0, 3, true⟩]
    decide
  · have h2' : 2 ≤ n := by omega
    simp [load_1d_series_rows, load_1d_default_series, h2', h4]
  · have hn4 : ¬ 4 ≤ n := by omega
    simp [load_1d_series_rows, load_1d_default_series, h2, hn4]
  · have hn2 : ¬ 2 ≤ n := by omega
    have hn4 : ¬ 4 ≤ n := by omega
    simp [load_1d_series_rows, load_1d_default_series, hn2, hn4, h0]

/-- Witness for C5 with a nonempty prior series list, at 5 and 2 columns. -/
theorem c5_load_default_series_witness :
    load_1d_series_rows [⟨9, 9, true⟩] 5 = [⟨0, 1, false⟩, ⟨0, 3, true⟩] ∧
    load_1d_series_rows [⟨9, 9, true⟩] 2 = [⟨0, 1, false⟩] :=
  ⟨(c5_load_default_series [⟨9, 9, true⟩] 5).1 (by decide),
   (c5_load_default_series [⟨9, 9, true⟩] 2).2.1 (by decide) (by decide)⟩

lemma filterMap_eraseIdx_of_none {α β : Type _} (f : α → Option β) :
    ∀ (l : List α) (i : Nat) (h : i < l.length), f (l.get ⟨i, h⟩) = none →
      (l.eraseIdx i).filterMap f = l.filterMap f
  | [], i, h, _ => absurd h (Nat.not_lt_zero i)
  | a :: l, 0, _, hf => by
      simp only [List.get] at hf
      simp [List.eraseIdx, List.filterMap_cons, hf]
  | a :: l, i + 1, h, hf => by
      have hj : i < l.length := Nat.lt_of_succ_lt_succ h
      have hf' : f (l.get ⟨i, hj⟩) = none := hf
      simp only [List.eraseIdx, List.filterMap_cons]
      rw [filterMap_eraseIdx_of_none f l i hj hf']

lemma mem_enum_filterMap {α β : Type _} (f : Nat × α → Option β) (l : List α) (i : Nat)
    (h : i < l.length) (b : β) (hf : f (i, l.get ⟨i, h⟩) = some b) :
    b ∈ l.enum.filterMap f := by
  refine List.mem_filterMap.mpr ⟨(i, l.get ⟨i, h⟩), ?_, hf⟩
  have hi : i < l.enum.length := by
    rw [List.enum_length]
    exact h
  have := List.getElem_enum l i (by simpa [List.enum_length] using h)
  refine List.mem_iff_get.mpr ⟨⟨i, hi⟩, ?_⟩
  simp [List.get_eq_getElem, this]

/-- The plotted list is the in-order collection of the surviving series. -/
lemma update_1d_plotted_eq (t : Table) (inputs : List SeriesInputRow) :
    (update_1d_plot_from_column_selection (some t) inputs).plotted =
      inputs.filterMap (fun inp => (processSeries t inp).toOption) := by
  simp only [update_1d_plot_from_column_selection]
  rw [List.filterMap_map]
  split_ifs with hp
  · rw [← hp]
    rfl
  · rfl

/-- The reported warnings are the in-order collection of the failures. -/
lemma update_1d_warnings_eq (t : Table) (inputs : List SeriesInputRow) :
    (update_1d_plot_from_column_selection (some t) inputs).warnings =
      (inputs.map (processSeries t)).enum.filterMap (fun p =>
        match p.2 with
        | .error k => some (p.1, k)
        | .ok _ => none) := by
  simp only [update_1d_plot_from_column_selection]
  split_ifs <;> rfl

/-- Dropping a spec that fails to resolve leaves the surviving series of the
other specs untouched. -/
lemma update_1d_plotted_eraseIdx (t : Table) (inputs : List SeriesInputRow) (i : Nat)
    (h : i < inputs.length) (k : WarnKind)
    (he : processSeries t (inputs.get ⟨i, h⟩) = .error k) :
    (update_1d_plot_from_column_selection (some t) inputs).plotted =
      (update_1d_plot_from_column_selection (some t) (inputs.eraseIdx i)).plotted := by
  rw [update_1d_plotted_eq, update_1d_plotted_eq]
  rw [filterMap_eraseIdx_of_none _ inputs i h (by rw [he]; rfl)]

/-- Claim C7: a series row that fails to resolve — non-integer or
out-of-range index, or no numeric rows left — is skipped with a reported
warning while the surviving series of all other rows are unchanged, and if no
row survives the plot is cleared and the non-fatal "No Plottable Series"
message is shown. -/
theorem c7_recompute_skips_bad_specs (t : Table) (inputs : List SeriesInputRow)
    (i : Nat) (h : i < inputs.length) (k : WarnKind)
    (he : processSeries t (inputs.get ⟨i, h⟩) = .error k) :
    (i, k) ∈ (update_1d_plot_from_column_selection (some t) inputs).warnings ∧
    (update_1d_plot_from_column_selection (some t) inputs).plotted =
      (update_1d_plot_from_column_selection (some t) (inputs.eraseIdx i)).plotted ∧
    ((update_1d_plot_from_column_selection (some t) inputs).plotted = [] →
      (update_1d_plot_from_column_selection (some t) inputs).cleared = true ∧
      (update_1d_plot_from_column_selection (some t) inputs).noPlottableMsg = true) := by
  refine ⟨?_, update_1d_plotted_eraseIdx t inputs i h k he, ?_⟩
  · rw [update_1d_warnings_eq]
    have hl : i < (inputs.map (processSeries t)).length := by simpa using h
    have hg : (inputs.map (processSeries t)).get ⟨i, hl⟩ =
        processSeries t (inputs.get ⟨i, h⟩) := by
      simp [List.get_eq_getElem]
    refine mem_enum_filterMap _ _ i hl _ ?_
    simp only [hg, he]
  · intro hp
    rw [update_1d_plotted_eq] at hp
    have hp2 : (inputs.map (processSeries t)).filterMap Except.toOption = [] := by
      rw [List.filterMap_map]
      exact hp
    simp only [update_1d_plot_from_column_selection]
    rw [if_pos hp2]
    exact ⟨rfl, rfl⟩

/-- Witness for C7: the out-of-range first row of `inputsEx` is reported and
skipped while the second still renders. -/
theorem c7_recompute_skips_bad_specs_witness :
    ((0 : Nat), WarnKind.outOfBounds) ∈
      (update_1d_plot_from_column_selection (some table2) inputsEx).warnings ∧
    (update_1d_plot_from_column_selection (some table2) inputsEx).plotted =
      (update_1d_plot_from_column_selection (some table2) (inputsEx.eraseIdx 0)).plotted :=
  ⟨(c7_recompute_skips_bad_specs table2 inputsEx 0 (by decide) .outOfBounds (by decide)).1,
   (c7_recompute_skips_bad_specs table2 inputsEx 0 (by decide) .outOfBounds (by decide)).2.1⟩

lemma plotLineColors_eq_range (l : List PlotSeries) :
    plotLineColors l = (List.range l.length).map
      (fun j => colorsPalette.getD (j % colorsPalette.length) "k") := by
  unfold plotLineColors
  rw [show (fun p : Nat × PlotSeries => colorsPalette.getD (p.1 % colorsPalette.length) "k") =
        (fun j => colorsPalette.getD (j % colorsPalette.length) "k") ∘ Prod.fst from rfl]
  rw [← List.map_map, List.enum_map_fst]

/-- Counterexample to C8 as stated: over `table2`, the first spec of
`inputsEx` is skipped (out of range) and the surviving second spec — at
position 1 of the original list — is drawn with color "b", the palette color
of position 0, not "g", the palette color of its original position: skipped
specs do NOT consume a color slot. -/
theorem c8_counterexample :
    processSeries table2 ⟨"9", "9", false⟩ = .error .outOfBounds ∧
    plotLineColors (update_1d_plot_from_column_selection (some table2) inputsEx).plotted =
      ["b"] ∧
    colorsPalette.getD (1 % colorsPalette.length) "k" = "g" ∧
    ("b" : String) ≠ "g" := ⟨by decide, by decide, by decide, by decide⟩

/-- Claim C8 (amended): `plot_line` assigns colors by position among the
SURVIVING series, so a skipped spec consumes no color slot and the colors of
later series shift to fill the gap when an earlier spec becomes invalid. -/
theorem c8_colors_follow_surviving_position (t : Table) (inputs : List SeriesInputRow)
    (i : Nat) (h : i < inputs.length) (k : WarnKind)
    (he : processSeries t (inputs.get ⟨i, h⟩) = .error k) :
    plotLineColors (update_1d_plot_from_column_selection (some t) inputs).plotted =
      plotLineColors
        (update_1d_plot_from_column_selection (some t) (inputs.eraseIdx i)).plotted ∧
    plotLineColors (update_1d_plot_from_column_selection (some t) inputs).plotted =
      (List.range (update_1d_plot_from_column_selection (some t) inputs).plotted.length).map
        (fun j => colorsPalette.getD (j % colorsPalette.length) "k") := by
  constructor
  · rw [update_1d_plotted_eraseIdx t inputs i h k he]
  · exact plotLineColors_eq_range _

/-- Witness for C8 (amended) on `table2` and `inputsEx`. -/
theorem c8_colors_follow_surviving_position_witness :
    plotLineColors (update_1d_plot_from_column_selection (some table2) inputsEx).plotted =
      plotLineColors
        (update_1d_plot_from_column_selection (some table2) (inputsEx.eraseIdx 0)).plotted :=
  (c8_colors_follow_surviving_position table2 inputsEx 0 (by decide) .outOfBounds
    (by decide)).1

end DashBoard
